import Mathlib

/-!
# Agno Bot — verification of the hybrid memory core spec and the frontend API client

Part 1 models the Hybrid Memory Orchestration Engine.  The backend package that
implements it (FastAPI/Python) is not included in the repository snapshot under
`src/` (only its `requirements.txt` and documentation are), so every definition
in Part 1 carries a doc comment starting `Modelled from the spec:` and follows
the spec text (sections 3, 4.1-4.5, 7, 8) word by word.

Part 2 is a shallow embedding of the frontend API client (`ApiService` in the
unnamed frontend source file: `createSession`, `sendMessage`, `searchMemory`,
`createRelationship`, and the request bodies they build) and of the call site
`App.handleSendMessage`.  HTTP is modelled by an explicit `HttpResponse` value
(ok flag, statusText, parsed JSON body), and `Date.now()` by an explicit `now`
argument; everything else is translated directly from the JavaScript.
-/

/-! ## Part 1 — the memory core, modelled from the spec -/

/-- Modelled from the spec: the source backend tag of a memory item
(spec section 3, MemoryFact: "source backend tag, one of semantic or fact"). -/
inductive Backend where
  | semantic
  | fact
deriving DecidableEq, Repr

/-- Modelled from the spec: a merged memory item (spec section 9: "modeled as a
tagged union, MemoryItem, each carrying provenance").  It carries the text, the
source backend tag, a confidence score, a created timestamp used as recency,
an estimated size contribution, and the provenance list of backends that
contributed it (spec section 3). -/
structure MemoryItem where
  text : String
  backend : Backend
  confidence : ℚ
  timestamp : Nat
  size : Nat
  provenance : List Backend
deriving DecidableEq, Repr

/-- Modelled from the spec: per-adapter status recorded by the Router
(spec section 4.2: "per-adapter status, ok / timeout / error"). -/
inductive AdapterStatus where
  | ok
  | timeout
  | error
deriving DecidableEq, Repr

/-- Modelled from the spec: `RawMemoryResults` holds the raw, non-deduplicated
outputs of each adapter plus per-adapter status (spec section 4.2). -/
structure RawMemoryResults where
  semanticItems : List MemoryItem
  factItems : List MemoryItem
  semanticStatus : AdapterStatus
  factStatus : AdapterStatus
deriving DecidableEq, Repr

/-- Modelled from the spec: the per-turn aggregate handed to generation
(spec section 3, MemoryContext): ordered deduplicated item list and the total
estimated size. -/
structure MemoryContext where
  items : List MemoryItem
  totalSize : Nat
deriving DecidableEq, Repr

/-- Modelled from the spec: the empty MemoryContext, returned when both
backends contributed nothing (spec section 4.3: "output is empty, not an
error, when both backends returned nothing"). -/
def emptyMemoryContext : MemoryContext := { items := [], totalSize := 0 }

/-- Splits a character list at whitespace, accumulating the current word in
reverse; empty words are dropped. -/
def splitWordsAux : List Char → List Char → List (List Char)
  | [], acc => if acc.isEmpty then [] else [acc.reverse]
  | c :: rest, acc =>
    if c.isWhitespace then
      if acc.isEmpty then splitWordsAux rest []
      else acc.reverse :: splitWordsAux rest []
    else splitWordsAux rest (c :: acc)

/-- Modelled from the spec: lower-cased whitespace-normalized word list of a
text (spec section 4.3: "normalized case/whitespace"). -/
def normalizeWords (s : String) : List String :=
  (splitWordsAux s.data []).map (fun w => List.asString (w.map Char.toLower))

/-- Modelled from the spec: the deduplicated normalized word set of a text,
used for the near-duplicate similarity test. -/
def wordSet (s : String) : List String :=
  (normalizeWords s).dedup

/-- Modelled from the spec: near-duplicate text comparison (spec section 4.3:
"normalized case/whitespace, then similarity above a fixed threshold is
treated as duplicate").  Similarity is word-set overlap; the fixed threshold
is one half (overlap at least half of the union). -/
def nearDup (a b : String) : Bool :=
  let wa := wordSet a
  let wb := wordSet b
  let inter := (wa.filter (fun w => w ∈ wb)).length
  decide (2 * inter ≥ wa.length + wb.length - inter)

/-- Modelled from the spec: of two items judged duplicates, keep the one with
higher confidence, breaking ties by preferring the fact-backend item, and
record provenance of both sources on the kept item (spec section 4.3(b)). -/
def keepBetter (old new : MemoryItem) : MemoryItem :=
  let winner :=
    if old.confidence < new.confidence then new
    else if new.confidence < old.confidence then old
    else if new.backend = Backend.fact then new
    else old
  { winner with provenance := (old.provenance ++ new.provenance).dedup }

/-- Modelled from the spec: insert one item into an already deduplicated list,
merging it with the first near-duplicate found (spec section 4.3(b)). -/
def insertDedup : List MemoryItem → MemoryItem → List MemoryItem
  | [], x => [x]
  | y :: ys, x =>
    if nearDup y.text x.text then keepBetter y x :: ys
    else y :: insertDedup ys x

/-- Modelled from the spec: deduplicate the union of both backends' items
(spec section 4.3(b)). -/
def dedupItems (items : List MemoryItem) : List MemoryItem :=
  items.foldl insertDedup []

/-- Modelled from the spec: ranking order — confidence descending, secondarily
recency (timestamp) descending (spec section 4.3(c)).  `rankGE a b` holds when
`a` ranks at least as high as `b`. -/
def rankGE (a b : MemoryItem) : Bool :=
  decide (b.confidence < a.confidence ∨
    (a.confidence = b.confidence ∧ b.timestamp ≤ a.timestamp))

/-- Modelled from the spec: stable insertion into a ranked list. -/
def insertRanked (x : MemoryItem) : List MemoryItem → List MemoryItem
  | [] => [x]
  | y :: ys => if rankGE y x then y :: insertRanked x ys else x :: y :: ys

/-- Modelled from the spec: rank surviving items by confidence descending,
secondarily by recency descending (spec section 4.3(c)). -/
def rankItems (l : List MemoryItem) : List MemoryItem :=
  l.foldr insertRanked []

/-- Modelled from the spec: greedily include items in ranked order until the
size budget would be exceeded, then stop — items beyond the cutoff are
dropped, not truncated mid-item (spec section 4.3(d)). -/
def takeBudget : Nat → List MemoryItem → List MemoryItem
  | _, [] => []
  | budget, x :: xs =>
    if x.size ≤ budget then x :: takeBudget (budget - x.size) xs else []

/-- Modelled from the spec: tag an adapter item with its provenance when the
two result sets are unioned (spec section 4.3(a): "union all facts and
relationships from both backends, tagging provenance"). -/
def tagProvenance (b : Backend) (x : MemoryItem) : MemoryItem :=
  { x with backend := b, provenance := [b] }

/-- Modelled from the spec: `aggregate(raw, budget)` — union with provenance
tagging, near-duplicate deduplication, ranking, then greedy inclusion under
the size budget (spec section 4.3). -/
def aggregate (raw : RawMemoryResults) (budget : Nat) : MemoryContext :=
  let unioned :=
    raw.semanticItems.map (tagProvenance Backend.semantic) ++
      raw.factItems.map (tagProvenance Backend.fact)
  let chosen := takeBudget budget (rankItems (dedupItems unioned))
  { items := chosen, totalSize := (chosen.map MemoryItem.size).sum }

/-- Modelled from the spec: the configured size budget; the repository's
environment template sets MAX_MEMORY_CONTEXT to 1000. -/
def defaultBudget : Nat := 1000

/-- Modelled from the spec: the semantic-backend item of the overlap scenario
in section 8 — text "User likes hiking", confidence 0.6. -/
def hikingSemanticItem : MemoryItem :=
  { text := "User likes hiking", backend := Backend.semantic
    confidence := mkRat 3 5, timestamp := 100, size := 17, provenance := [] }

/-- Modelled from the spec: the fact-backend item of the overlap scenario in
section 8 — text "user prefers hiking", confidence 0.8. -/
def hikingFactItem : MemoryItem :=
  { text := "user prefers hiking", backend := Backend.fact
    confidence := mkRat 4 5, timestamp := 101, size := 19, provenance := [] }

/-- Modelled from the spec: the raw results of the overlap scenario in
section 8 — both backends returned, with one overlapping item each. -/
def hikingRaw : RawMemoryResults :=
  { semanticItems := [hikingSemanticItem], factItems := [hikingFactItem]
    semanticStatus := AdapterStatus.ok, factStatus := AdapterStatus.ok }

/-- Modelled from the spec: raw results in which both backends returned
nothing. -/
def emptyRaw : RawMemoryResults :=
  { semanticItems := [], factItems := []
    semanticStatus := AdapterStatus.ok, factStatus := AdapterStatus.ok }

/-- Modelled from the spec: the outcome of one adapter call as observed by the
Router — either it returned items, or it timed out, or it errored
(spec section 4.2). -/
inductive AdapterOutcome where
  | ok (items : List MemoryItem)
  | timeout
  | error
deriving DecidableEq, Repr

/-- Modelled from the spec: the items the Router records for an adapter call —
the returned items on success, and the empty contribution when the adapter
timed out or errored (spec section 4.2: "it records that backend's
contribution as empty and proceeds with whatever succeeded"). -/
def outcomeItems : AdapterOutcome → List MemoryItem
  | .ok items => items
  | .timeout => []
  | .error => []

/-- Modelled from the spec: the per-adapter status the Router records. -/
def outcomeStatus : AdapterOutcome → AdapterStatus
  | .ok _ => .ok
  | .timeout => .timeout
  | .error => .error

/-- Modelled from the spec: the Router's result assembly — each backend's
contribution plus its status, with failed backends recorded as empty
(spec section 4.2). -/
def route (semOutcome factOutcome : AdapterOutcome) : RawMemoryResults :=
  { semanticItems := outcomeItems semOutcome
    factItems := outcomeItems factOutcome
    semanticStatus := outcomeStatus semOutcome
    factStatus := outcomeStatus factOutcome }

/-- Modelled from the spec: the result of `handleTurn` — the reply text and
the memory context used to generate it (spec section 6). -/
structure TurnResult where
  replyText : String
  memoryContext : MemoryContext
deriving DecidableEq, Repr

/-- Modelled from the spec: `handleTurn` — the single synchronous entry point
per chat turn (spec section 6).  The generation call is an external black box,
passed in as a function; the adapter outcomes of the two parallel calls are
explicit inputs.  The turn always completes: a degraded backend only shrinks
the context (spec section 7). -/
def handleTurn (generate : String → MemoryContext → String) (utterance : String)
    (semOutcome factOutcome : AdapterOutcome) (budget : Nat) : TurnResult :=
  let ctx := aggregate (route semOutcome factOutcome) budget
  { replyText := generate utterance ctx, memoryContext := ctx }

/-- Modelled from the spec: detected intent tag of a query classification
(spec section 3, QueryClassification). -/
inductive Intent where
  | factualLookup
  | relationshipLookup
  | generalConversation
  | ambiguous
deriving DecidableEq, Repr

/-- Modelled from the spec: the classifier's ephemeral result — weight for the
semantic backend, weight for the fact backend, detected intent
(spec section 3). -/
structure QueryClassification where
  weightSemantic : ℚ
  weightFact : ℚ
  intent : Intent
deriving DecidableEq, Repr

/-- Modelled from the spec: interrogative factual markers (spec section 4.1). -/
def factualMarkers : List String :=
  ["what", "who", "when", "where", "which"]

/-- Modelled from the spec: known relationship vocabulary (spec section 4.1). -/
def relationshipVocabulary : List String :=
  ["married", "friend", "parent", "works", "knows", "likes", "prefers"]

/-- Modelled from the spec: narrative/continuation language markers
(spec section 4.1). -/
def narrativeMarkers : List String :=
  ["then", "after", "before", "remember", "earlier", "story", "continue"]

/-- Modelled from the spec: back-reference pronouns that signal continuation
of the recent turns (spec section 4.1). -/
def continuationPronouns : List String :=
  ["he", "she", "they", "it", "that"]

/-- Modelled from the spec: presence of an interrogative factual marker in the
utterance (spec section 4.1: raises fact-weight). -/
def hasFactualSignal (utterance : String) : Bool :=
  (normalizeWords utterance).any (fun w => factualMarkers.contains w)

/-- Modelled from the spec: presence of known relationship vocabulary in the
utterance (spec section 4.1: raises fact-weight). -/
def hasRelationshipSignal (utterance : String) : Bool :=
  (normalizeWords utterance).any (fun w => relationshipVocabulary.contains w)

/-- Modelled from the spec: presence of narrative/continuation language — a
narrative marker in the utterance, or a back-reference pronoun while recent
turns exist (spec section 4.1: raises semantic-weight). -/
def hasNarrativeSignal (utterance : String) (recentTurns : List String) : Bool :=
  (normalizeWords utterance).any (fun w => narrativeMarkers.contains w) ||
    (!recentTurns.isEmpty &&
      (normalizeWords utterance).any (fun w => continuationPronouns.contains w))

/-- Modelled from the spec: the ambiguous default classification — both
weights one half, intent ambiguous (spec section 4.1). -/
def ambiguousDefault : QueryClassification :=
  { weightSemantic := mkRat 1 2, weightFact := mkRat 1 2
    intent := Intent.ambiguous }

/-- Modelled from the spec: `classify(utterance, recentTurns)` — lexical and
heuristic scoring; factual markers and relationship vocabulary raise the fact
weight, narrative/continuation language raises the semantic weight, both
weights default to one half when no strong signal is found (spec section
4.1). -/
def classify (utterance : String) (recentTurns : List String) :
    QueryClassification :=
  let fact := hasFactualSignal utterance
  let rel := hasRelationshipSignal utterance
  let narr := hasNarrativeSignal utterance recentTurns
  { weightSemantic := if narr then mkRat 4 5 else mkRat 1 2
    weightFact := if fact || rel then mkRat 4 5 else mkRat 1 2
    intent :=
      if rel then Intent.relationshipLookup
      else if fact then Intent.factualLookup
      else if narr then Intent.generalConversation
      else Intent.ambiguous }

/-- Modelled from the spec: the classifier with an explicit environment pass,
expressing that it is a pure function of its inputs and performs no I/O
(spec section 4.1): the result depends only on the utterance and the recent
turns, and the environment is returned untouched. -/
def classifyEnv {W : Type} (w : W) (utterance : String)
    (recentTurns : List String) : QueryClassification × W :=
  (classify utterance recentTurns, w)

/-- Modelled from the spec: a normalized candidate text — lower-cased words
rejoined with single spaces (spec section 4.4: the pipeline submits
"normalized candidates"). -/
def normalizeCandidate (s : String) : String :=
  String.intercalate " " (normalizeWords s)

/-- Modelled from the spec: lightweight extraction of candidate facts from a
completed exchange — the exchange is split into sentence-like segments, each
normalized, empty segments dropped (spec section 4.4). -/
def extractCandidates (turnText assistantReplyText : String) : List String :=
  (((turnText ++ " " ++ assistantReplyText).split
      (fun c => c = '.' || c = '!' || c = '?')).map normalizeCandidate).filter
    (fun s => s ≠ "")

/-- Modelled from the spec: the externally persisted backend stores — the fact
backend's consolidated fact list and the semantic backend's consolidated
per-session turn log (spec sections 4.4 and 6). -/
structure BackendStores where
  factStore : List String
  semanticLog : List (String × String)
deriving DecidableEq, Repr

/-- Modelled from the spec: the fact backend's `submitFact` under the
backend-side consolidation contract the adapters are assumed to provide — a
candidate already present is consolidated away instead of duplicated
(spec section 4.4). -/
def submitConsolidated (store : List String) (cand : String) : List String :=
  if cand ∈ store then store else store ++ [cand]

/-- Modelled from the spec: the semantic backend's `appendTurn` under the same
backend-side consolidation contract — the backend builds its own graph
internally and does not duplicate an already-ingested turn (spec sections 4.4
and 6). -/
def appendTurnConsolidated (log : List (String × String)) (sessionId text : String) :
    List (String × String) :=
  if (sessionId, text) ∈ log then log else log ++ [(sessionId, text)]

/-- Modelled from the spec: `ingest(sessionId, userId, turnText,
assistantReplyText)` — extract candidate facts from the exchange and submit
them to the fact backend, and append the raw turn to the semantic backend,
each write going through the backend's own consolidation (spec section 4.4).
The `userId` parameter is part of the contract signature but does not affect
which candidates are extracted. -/
def ingest (stores : BackendStores) (sessionId userId turnText assistantReplyText : String) :
    BackendStores :=
  { factStore :=
      (extractCandidates turnText assistantReplyText).foldl submitConsolidated
        stores.factStore
    semanticLog :=
      appendTurnConsolidated stores.semanticLog sessionId
        (turnText ++ " " ++ assistantReplyText ++ " " ++ userId) }

/-- Modelled from the spec: the in-memory phase of a cached session
(spec section 4.5: Active and Idle; Evicted is modelled by absence from the
keyed store). -/
inductive SessionPhase where
  | active
  | idle
deriving DecidableEq, Repr

/-- Modelled from the spec: per-session cache — session id, user id, rolling
window of recent turns, dirty flag, and in-memory phase (spec section 3,
SessionMemoryState). -/
structure SessionMemoryState where
  sessionId : String
  userId : String
  recentTurns : List String
  dirty : Bool
  phase : SessionPhase
deriving DecidableEq, Repr

/-- Modelled from the spec: the whole system state the Lifecycle Manager and
backends share — the keyed in-process store (map of session id to owned
state, spec section 9) and the externally persisted backend stores. -/
structure SystemState where
  cache : List (String × SessionMemoryState)
  backends : BackendStores
deriving DecidableEq, Repr

/-- Modelled from the spec: lookup in the keyed session store. -/
def lookupSession (cache : List (String × SessionMemoryState)) (sid : String) :
    Option SessionMemoryState :=
  match cache with
  | [] => none
  | (k, s) :: rest => if k = sid then some s else lookupSession rest sid

/-- Modelled from the spec: a fresh Active state with an empty rolling window,
created on the first turn of a session id (spec section 4.5: re-creation from
scratch after eviction, "a fresh Active state with empty rolling window"). -/
def freshState (sid uid : String) : SessionMemoryState :=
  { sessionId := sid, userId := uid, recentTurns := [], dirty := false
    phase := SessionPhase.active }

/-- Modelled from the spec: eviction reclaims only the in-process state of the
session id; the externally persisted backend stores are untouched
(spec section 4.5: "eviction must never lose already-written backend
memory"). -/
def evict (st : SystemState) (sid : String) : SystemState :=
  { st with cache := st.cache.filter (fun e => e.1 != sid) }

/-- Modelled from the spec: the state the Lifecycle Manager supplies for an
arriving turn — the cached state reactivated if present, else a fresh Active
state created from scratch (spec section 4.5: Idle to Active on any new turn;
a later turn for an evicted session id triggers re-creation from scratch). -/
def acquireSession (st : SystemState) (sid uid : String) : SessionMemoryState :=
  match lookupSession st.cache sid with
  | some s => { s with phase := SessionPhase.active }
  | none => freshState sid uid

/-! ## Part 2 — the frontend API client, embedded from the source -/

/-- Parsed JSON values, the result of `response.json()` in the client. -/
inductive Json where
  | null
  | bool (b : Bool)
  | num (n : Int)
  | str (s : String)
  | arr (elems : List Json)
  | obj (fields : List (String × Json))

/-- Field lookup in a parsed JSON object. -/
def lookupField : List (String × Json) → String → Option Json
  | [], _ => none
  | (k, v) :: rest, key => if k = key then some v else lookupField rest key

/-- Access a field of a JSON value, as `errorData.detail` does. -/
def Json.getField : Json → String → Option Json
  | .obj fields, key => lookupField fields key
  | _, _ => none

/-- The JavaScript pattern `errorData.detail || fallback`: the detail string
when it is present and truthy (a non-empty string), the fallback otherwise. -/
def detailOr (body : Json) (fallback : String) : String :=
  match body.getField "detail" with
  | some (Json.str s) => if s = "" then fallback else s
  | _ => fallback

/-- An HTTP response as the client observes it: the `ok` flag, the
`statusText`, and the parsed JSON body. -/
structure HttpResponse where
  ok : Bool
  statusText : String
  body : Json

/-- Embeds `ApiService.createSession`'s response handling: when the response
is not ok it throws `Failed to create session: statusText`, otherwise it
returns the parsed body. -/
def createSession (response : HttpResponse) : Except String Json :=
  if response.ok then Except.ok response.body
  else Except.error ("Failed to create session: " ++ response.statusText)

/-- Embeds `ApiService.sendMessage`'s response handling: when the response is
not ok it parses the error body and throws `errorData.detail` or the fallback
`Failed to send message`, otherwise it returns the parsed body. -/
def sendMessage (response : HttpResponse) : Except String Json :=
  if response.ok then Except.ok response.body
  else Except.error (detailOr response.body "Failed to send message")

/-- Embeds `ApiService.searchMemory`'s response handling: when the response is
not ok it throws `Failed to search memory: statusText`, otherwise it returns
the parsed body. -/
def searchMemory (response : HttpResponse) : Except String Json :=
  if response.ok then Except.ok response.body
  else Except.error ("Failed to search memory: " ++ response.statusText)

/-- The decimal digit character for a digit value, as JavaScript number
stringification renders it: code point 48 plus the digit. -/
def digitChar (d : Nat) : Char := Char.ofNat (48 + d)

/-- Inverse of `digitChar` on decimal digits. -/
def charDigit (c : Char) : Nat := c.toNat - 48

/-- Little-endian decimal digits of `n`, with explicit fuel for structural
recursion; `fuel ≥ n` suffices. -/
def digitsRevAux : Nat → Nat → List Nat
  | 0, _ => []
  | fuel + 1, n => if n = 0 then [] else n % 10 :: digitsRevAux fuel (n / 10)

/-- Little-endian decimal digits of `n` (empty for zero). -/
def digitsRev (n : Nat) : List Nat := digitsRevAux n n

/-- Value of a little-endian decimal digit list. -/
def fromDigitsRev : List Nat → Nat
  | [] => 0
  | d :: ds => d + 10 * fromDigitsRev ds

/-- Decimal rendering of a natural number, modelling the JavaScript template
interpolation of `Date.now()` into a string. -/
def natToDecimal (n : Nat) : String :=
  if n = 0 then "0" else ((digitsRev n).reverse.map digitChar).asString

/-- Decode a decimal string back to a natural number; a left inverse of
`natToDecimal` used to prove it injective. -/
def decodeDecimal (s : String) : Nat :=
  fromDigitsRev (s.data.map charDigit).reverse

/-- Embeds the generated user id of `ApiService.sendMessage` and
`ApiService.createSession`: the template `user-` followed by `Date.now()`. -/
def genUserId (now : Nat) : String := "user-" ++ natToDecimal now

/-- The request body `ApiService.sendMessage` posts to `/api/v1/chat/send`. -/
structure SendMessageRequest where
  message : String
  session_id : String
  user_id : String
  memory_context : Bool
deriving DecidableEq, Repr

/-- Embeds the body construction of `ApiService.sendMessage`: the `user_id`
field is `userId or user-Date.now()`, so a missing or empty (falsy) `userId`
is replaced by a freshly generated id; `now` is the explicit clock value. -/
def sendMessageRequest (message sessionId : String) (userId : Option String)
    (memoryContext : Bool) (now : Nat) : SendMessageRequest :=
  { message := message
    session_id := sessionId
    user_id :=
      match userId with
      | some u => if u = "" then genUserId now else u
      | none => genUserId now
    memory_context := memoryContext }

/-- Embeds the call `ApiService.sendMessage(messageText, sessionId)` made by
`App.handleSendMessage`: `userId` is omitted (null) and `memoryContext`
defaults to true. -/
def handleSendMessageRequest (messageText sessionId : String) (now : Nat) :
    SendMessageRequest :=
  sendMessageRequest messageText sessionId none true now

/-- The query parameters `ApiService.createRelationship` posts to
`/api/v1/memory/relationships`. -/
structure CreateRelationshipRequest where
  source_entity : String
  target_entity : String
  relationship_type : String
  confidence : ℚ
  session_id : Option String
deriving DecidableEq, Repr

/-- The default confidence of `ApiService.createRelationship` (0.8 in the
source). -/
def defaultRelationshipConfidence : ℚ := mkRat 4 5

/-- Embeds `ApiService.createRelationship`: every argument is forwarded into
the request parameters unchanged; the JavaScript defaults (`sessionId = null`,
`confidence = 0.8`) are supplied explicitly by callers of this model. -/
def createRelationship (sourceEntity targetEntity relationshipType : String)
    (sessionId : Option String) (confidence : ℚ) : CreateRelationshipRequest :=
  { source_entity := sourceEntity
    target_entity := targetEntity
    relationship_type := relationshipType
    confidence := confidence
    session_id := sessionId }

/-! ## Theorems -/

/-- The greedy inclusion step never exceeds its budget: the sizes of the
chosen items sum to at most the budget it was given. -/
theorem takeBudget_sum_le (l : List MemoryItem) :
    ∀ budget : Nat, ((takeBudget budget l).map MemoryItem.size).sum ≤ budget := by
  induction l with
  | nil => intro budget; simp [takeBudget]
  | cons x xs ih =>
    intro budget
    by_cases h : x.size ≤ budget
    · have hrest := ih (budget - x.size)
      simp only [takeBudget, if_pos h, List.map_cons, List.sum_cons]
      omega
    · simp [takeBudget, if_neg h]

/-- C1: for every RawMemoryResults value and every size budget, `aggregate`
returns a MemoryContext whose total estimated size is at most the budget, and
when both backends returned nothing it returns the empty MemoryContext (a
value, not an error). -/
theorem aggregate_respects_budget (raw : RawMemoryResults) (budget : Nat) :
    (aggregate raw budget).totalSize ≤ budget ∧
      (raw.semanticItems = [] ∧ raw.factItems = [] →
        aggregate raw budget = emptyMemoryContext) := by
  constructor
  · exact takeBudget_sum_le _ budget
  · rintro ⟨h1, h2⟩
    cases raw
    simp only at h1 h2
    subst h1
    subst h2
    rfl

/-- C1 witness: the budget bound evaluated on the section 8 overlap scenario,
and the empty output evaluated on empty raw results. -/
theorem aggregate_respects_budget_witness :
    (aggregate hikingRaw defaultBudget).totalSize ≤ defaultBudget ∧
      aggregate emptyRaw defaultBudget = emptyMemoryContext :=
  ⟨(aggregate_respects_budget hikingRaw defaultBudget).1,
    (aggregate_respects_budget emptyRaw defaultBudget).2 ⟨rfl, rfl⟩⟩

/-- C2: when two items are judged near-duplicates, deduplication keeps exactly
one of them — the one with higher confidence, ties broken in favour of the
fact-backend item — and the kept item's provenance merges both sources; and
on the section 8 overlap scenario, `aggregate` keeps exactly the fact-backend
hiking item with provenance noting both sources. -/
theorem dedup_keeps_higher_confidence (a b : MemoryItem)
    (h : nearDup a.text b.text = true) :
    dedupItems [a, b] = [keepBetter a b] ∧
    (keepBetter a b).provenance = (a.provenance ++ b.provenance).dedup ∧
    (a.confidence < b.confidence →
      (keepBetter a b).text = b.text ∧ (keepBetter a b).backend = b.backend ∧
        (keepBetter a b).confidence = b.confidence) ∧
    (b.confidence < a.confidence →
      (keepBetter a b).text = a.text ∧ (keepBetter a b).backend = a.backend ∧
        (keepBetter a b).confidence = a.confidence) ∧
    (a.confidence = b.confidence → b.backend = Backend.fact →
      (keepBetter a b).text = b.text ∧ (keepBetter a b).backend = b.backend ∧
        (keepBetter a b).confidence = b.confidence) ∧
    aggregate hikingRaw defaultBudget =
      { items := [{ text := "user prefers hiking", backend := Backend.fact
                    confidence := mkRat 4 5, timestamp := 101, size := 19
                    provenance := [Backend.semantic, Backend.fact] }]
        totalSize := 19 } := by
  refine ⟨?_, rfl, ?_, ?_, ?_, by decide⟩
  · simp [dedupItems, insertDedup, h]
  · intro hlt
    simp [keepBetter, if_pos hlt]
  · intro hlt
    have hnot : ¬ a.confidence < b.confidence := lt_asymm hlt
    simp [keepBetter, if_neg hnot, if_pos hlt]
  · intro heq hfact
    have h1 : ¬ a.confidence < b.confidence := by rw [heq]; exact lt_irrefl _
    have h2 : ¬ b.confidence < a.confidence := by rw [heq]; exact lt_irrefl _
    simp [keepBetter, if_neg h1, if_neg h2, if_pos hfact, heq]

/-- C2 witness: the pairwise deduplication applied to the two concrete hiking
items of the section 8 scenario. -/
theorem dedup_keeps_higher_confidence_witness :
    dedupItems [hikingSemanticItem, hikingFactItem] =
        [keepBetter hikingSemanticItem hikingFactItem] ∧
      (keepBetter hikingSemanticItem hikingFactItem).text = hikingFactItem.text := by
  have h := dedup_keeps_higher_confidence hikingSemanticItem hikingFactItem (by decide)
  exact ⟨h.1, (h.2.2.1 (by decide)).1⟩

/-- C3: a turn always completes with a reply generated from its memory
context; a backend that timed out or errored has its contribution recorded as
empty, and when both backends failed the reply is generated with the empty
MemoryContext — a degraded backend never fails the turn. -/
theorem handleTurn_degrades_gracefully (generate : String → MemoryContext → String)
    (u : String) (budget : Nat) (semOutcome factOutcome : AdapterOutcome) :
    (handleTurn generate u semOutcome factOutcome budget).replyText =
        generate u ((handleTurn generate u semOutcome factOutcome budget).memoryContext) ∧
    (semOutcome = AdapterOutcome.timeout ∨ semOutcome = AdapterOutcome.error →
      (route semOutcome factOutcome).semanticItems = []) ∧
    (factOutcome = AdapterOutcome.timeout ∨ factOutcome = AdapterOutcome.error →
      (route semOutcome factOutcome).factItems = []) ∧
    ((semOutcome = AdapterOutcome.timeout ∨ semOutcome = AdapterOutcome.error) →
      (factOutcome = AdapterOutcome.timeout ∨ factOutcome = AdapterOutcome.error) →
      (handleTurn generate u semOutcome factOutcome budget).memoryContext =
          emptyMemoryContext ∧
        (handleTurn generate u semOutcome factOutcome budget).replyText =
          generate u emptyMemoryContext) := by
  refine ⟨rfl, ?_, ?_, ?_⟩
  · rintro (rfl | rfl) <;> rfl
  · rintro (rfl | rfl) <;> rfl
  · rintro (rfl | rfl) (rfl | rfl) <;> exact ⟨rfl, rfl⟩

/-- C3 witness: both backends unavailable (one timed out, one errored), with a
concrete generation function — the turn still yields the generated reply over
the empty context. -/
theorem handleTurn_degrades_gracefully_witness :
    (handleTurn (fun _ _ => "a reply") "hi" AdapterOutcome.timeout
          AdapterOutcome.error defaultBudget).memoryContext = emptyMemoryContext ∧
      (handleTurn (fun _ _ => "a reply") "hi" AdapterOutcome.timeout
          AdapterOutcome.error defaultBudget).replyText = "a reply" :=
  (handleTurn_degrades_gracefully (fun _ _ => "a reply") "hi" defaultBudget
      AdapterOutcome.timeout AdapterOutcome.error).2.2.2 (Or.inl rfl) (Or.inr rfl)

/-- Membership in a store is preserved by a consolidated submission. -/
theorem mem_submitConsolidated_of_mem {store : List String} {x cand : String}
    (h : x ∈ store) : x ∈ submitConsolidated store cand := by
  unfold submitConsolidated
  split
  · exact h
  · exact List.mem_append_left _ h

/-- A submitted candidate is in the store afterwards. -/
theorem mem_submitConsolidated_self (store : List String) (cand : String) :
    cand ∈ submitConsolidated store cand := by
  unfold submitConsolidated
  split
  · assumption
  · exact List.mem_append_right _ (List.mem_singleton.mpr rfl)

/-- Membership in a store is preserved by a whole batch of consolidated
submissions. -/
theorem mem_foldl_submit_of_mem (cands : List String) :
    ∀ (store : List String) (x : String), x ∈ store →
      x ∈ cands.foldl submitConsolidated store := by
  induction cands with
  | nil => intro store x h; simpa using h
  | cons c cs ih =>
    intro store x h
    exact ih _ _ (mem_submitConsolidated_of_mem h)

/-- Every candidate of a batch is in the store after the batch is submitted. -/
theorem mem_foldl_submit_self (cands : List String) :
    ∀ (store : List String) (c : String), c ∈ cands →
      c ∈ cands.foldl submitConsolidated store := by
  induction cands with
  | nil => intro store c h; simp at h
  | cons d ds ih =>
    intro store c h
    rcases List.mem_cons.mp h with rfl | h
    · exact mem_foldl_submit_of_mem ds _ _ (mem_submitConsolidated_self store c)
    · exact ih _ _ h

/-- Submitting a batch whose candidates are all already in the store leaves
the store unchanged: that is exactly what backend-side consolidation
prevents. -/
theorem foldl_submit_eq_of_subset (cands : List String) :
    ∀ store : List String, (∀ c ∈ cands, c ∈ store) →
      cands.foldl submitConsolidated store = store := by
  induction cands with
  | nil => intro store _; rfl
  | cons c cs ih =>
    intro store h
    have hc : c ∈ store := h c (List.mem_cons_self c cs)
    have hstep : submitConsolidated store c = store := by
      unfold submitConsolidated
      exact if_pos hc
    rw [List.foldl_cons, hstep]
    exact ih store (fun d hd => h d (List.mem_cons_of_mem _ hd))

/-- Consolidated submission preserves freedom from duplicates. -/
theorem submitConsolidated_nodup {store : List String} (cand : String)
    (h : store.Nodup) : (submitConsolidated store cand).Nodup := by
  unfold submitConsolidated
  split
  · exact h
  · next hmem => simpa [List.nodup_append] using ⟨h, hmem⟩

/-- A batch of consolidated submissions preserves freedom from duplicates. -/
theorem foldl_submit_nodup (cands : List String) :
    ∀ store : List String, store.Nodup →
      (cands.foldl submitConsolidated store).Nodup := by
  induction cands with
  | nil => intro store h; simpa using h
  | cons c cs ih =>
    intro store h
    exact ih _ (submitConsolidated_nodup c h)

/-- Appending the same turn twice through backend-side consolidation is the
same as appending it once. -/
theorem appendTurnConsolidated_idem (log : List (String × String)) (s t : String) :
    appendTurnConsolidated (appendTurnConsolidated log s t) s t =
      appendTurnConsolidated log s t := by
  by_cases h : (s, t) ∈ log
  · simp [appendTurnConsolidated, h]
  · simp [appendTurnConsolidated, h]

/-- C4: ingestion is idempotent with respect to the backend stores — running
`ingest` twice with the same arguments produces the same stores as running it
once, and ingestion never introduces duplicate facts into a duplicate-free
fact store. -/
theorem ingest_idempotent (stores : BackendStores)
    (sessionId userId turnText assistantReplyText : String) :
    ingest (ingest stores sessionId userId turnText assistantReplyText)
        sessionId userId turnText assistantReplyText =
      ingest stores sessionId userId turnText assistantReplyText ∧
    (stores.factStore.Nodup →
      ((ingest stores sessionId userId turnText assistantReplyText).factStore).Nodup) := by
  constructor
  · unfold ingest
    simp only [BackendStores.mk.injEq]
    constructor
    · exact foldl_submit_eq_of_subset _ _
        (fun c hc => mem_foldl_submit_self _ _ _ hc)
    · exact appendTurnConsolidated_idem _ _ _
  · intro h
    exact foldl_submit_nodup _ _ h

/-- C4 witness: ingesting a concrete exchange twice equals ingesting it once,
starting from empty duplicate-free stores. -/
theorem ingest_idempotent_witness :
    ingest (ingest { factStore := [], semanticLog := [] } "s1" "u1"
          "I like hiking. I live in Rome." "Nice!")
        "s1" "u1" "I like hiking. I live in Rome." "Nice!" =
      ingest { factStore := [], semanticLog := [] } "s1" "u1"
        "I like hiking. I live in Rome." "Nice!" ∧
    ((ingest { factStore := [], semanticLog := [] } "s1" "u1"
        "I like hiking. I live in Rome." "Nice!").factStore).Nodup :=
  ⟨(ingest_idempotent { factStore := [], semanticLog := [] } "s1" "u1"
      "I like hiking. I live in Rome." "Nice!").1,
    (ingest_idempotent { factStore := [], semanticLog := [] } "s1" "u1"
      "I like hiking. I live in Rome." "Nice!").2 List.nodup_nil⟩

/-- C5: the classifier is a deterministic pure function — two invocations on
identical utterance and recent turns return identical classifications, and the
environment passes through untouched (no I/O). -/
theorem classify_deterministic_pure (W₁ W₂ : Type) (w₁ : W₁) (w₂ : W₂)
    (u₁ u₂ : String) (ts₁ ts₂ : List String) (hu : u₁ = u₂) (hts : ts₁ = ts₂) :
    (classifyEnv w₁ u₁ ts₁).1 = (classifyEnv w₂ u₂ ts₂).1 ∧
      (classifyEnv w₁ u₁ ts₁).2 = w₁ := by
  subst hu
  subst hts
  exact ⟨rfl, rfl⟩

/-- C5 witness: two invocations on the same concrete input, under two
different environments, agree and leave their environments untouched. -/
theorem classify_deterministic_pure_witness :
    (classifyEnv (37 : Nat) "what is my name" ["hi"]).1 =
        (classifyEnv "another world" "what is my name" ["hi"]).1 ∧
      (classifyEnv (37 : Nat) "what is my name" ["hi"]).2 = 37 :=
  classify_deterministic_pure Nat String 37 "another world"
    "what is my name" "what is my name" ["hi"] ["hi"] rfl rfl

/-- C6: the classifier never fails — whenever no strong lexical signal is
found it returns the ambiguous default with both weights equal to one half,
and in every case both weights stay between the one-half baseline and one, so
no memory type is ever starved. -/
theorem classify_ambiguous_default (u : String) (ts : List String) :
    (hasFactualSignal u = false → hasRelationshipSignal u = false →
      hasNarrativeSignal u ts = false → classify u ts = ambiguousDefault) ∧
    mkRat 1 2 ≤ (classify u ts).weightSemantic ∧
    (classify u ts).weightSemantic ≤ 1 ∧
    mkRat 1 2 ≤ (classify u ts).weightFact ∧
    (classify u ts).weightFact ≤ 1 := by
  refine ⟨?_, ?_, ?_, ?_, ?_⟩
  · intro h1 h2 h3
    simp [classify, h1, h2, h3, ambiguousDefault]
  · by_cases h : hasNarrativeSignal u ts <;> simp [classify, h] <;> decide
  · by_cases h : hasNarrativeSignal u ts <;> simp [classify, h] <;> decide
  · by_cases h : hasFactualSignal u || hasRelationshipSignal u <;>
      simp [classify, h] <;> decide
  · by_cases h : hasFactualSignal u || hasRelationshipSignal u <;>
      simp [classify, h] <;> decide

/-- C6 witness: a concrete utterance with no lexical signal classifies to the
ambiguous default, and the weight bounds hold there. -/
theorem classify_ambiguous_default_witness :
    classify "hello hello" [] = ambiguousDefault ∧
      mkRat 1 2 ≤ (classify "hello hello" []).weightFact :=
  ⟨(classify_ambiguous_default "hello hello" []).1 (by decide) (by decide)
      (by decide),
    (classify_ambiguous_default "hello hello" []).2.2.2.1⟩

/-- An evicted session id is no longer found in the keyed store. -/
theorem lookupSession_evict (cache : List (String × SessionMemoryState)) (sid : String) :
    lookupSession (cache.filter (fun e => e.1 != sid)) sid = none := by
  induction cache with
  | nil => rfl
  | cons e rest ih =>
    by_cases h : e.1 = sid
    · simpa [List.filter_cons, h] using ih
    · simpa [List.filter_cons, h, lookupSession] using ih

/-- C7: after a session id is evicted, it is absent from the in-process keyed
store, a new turn for it recreates the state from scratch — a fresh Active
state with an empty rolling window, with no error — and eviction leaves the
externally persisted backend stores untouched. -/
theorem evicted_session_cold_start (st : SystemState) (sid uid : String) :
    lookupSession (evict st sid).cache sid = none ∧
    acquireSession (evict st sid) sid uid = freshState sid uid ∧
    (freshState sid uid).recentTurns = [] ∧
    (freshState sid uid).phase = SessionPhase.active ∧
    (evict st sid).backends = st.backends := by
  have hlook : lookupSession (evict st sid).cache sid = none :=
    lookupSession_evict st.cache sid
  refine ⟨hlook, ?_, rfl, rfl, rfl⟩
  unfold acquireSession
  rw [hlook]

/-- C8 counterexample: `ApiService.createRelationship` happily builds a
relationship-creation request whose source and target entity coincide and
whose confidence lies outside the unit interval — the stated invariant is not
enforced at this interface. -/
theorem createRelationship_invariant_fails :
    (createRelationship "user" "user" "knows" none (mkRat 3 2)).source_entity =
        (createRelationship "user" "user" "knows" none (mkRat 3 2)).target_entity ∧
      1 < (createRelationship "user" "user" "knows" none (mkRat 3 2)).confidence :=
  ⟨rfl, by decide⟩

/-- C8 (amended): `ApiService.createRelationship` forwards every argument into
the request parameters unchanged, enforcing neither the distinctness of the
entities nor the range of the confidence; only the source's default confidence
0.8 lies in the unit interval. -/
theorem createRelationship_passthrough (sourceEntity targetEntity relType : String)
    (sessionId : Option String) (confidence : ℚ) :
    (createRelationship sourceEntity targetEntity relType sessionId
        confidence).source_entity = sourceEntity ∧
    (createRelationship sourceEntity targetEntity relType sessionId
        confidence).target_entity = targetEntity ∧
    (createRelationship sourceEntity targetEntity relType sessionId
        confidence).relationship_type = relType ∧
    (createRelationship sourceEntity targetEntity relType sessionId
        confidence).confidence = confidence ∧
    (createRelationship sourceEntity targetEntity relType sessionId
        confidence).session_id = sessionId ∧
    0 ≤ defaultRelationshipConfidence ∧ defaultRelationshipConfidence ≤ 1 :=
  ⟨rfl, rfl, rfl, rfl, rfl, by decide, by decide⟩

/-- C9: each embedded ApiService request method throws exactly when the HTTP
response is not ok — with the error message the source builds — and otherwise
returns the parsed JSON body unchanged. -/
theorem api_methods_error_iff_not_ok (r : HttpResponse) :
    (r.ok = true →
      createSession r = Except.ok r.body ∧
        sendMessage r = Except.ok r.body ∧
        searchMemory r = Except.ok r.body) ∧
    (r.ok = false →
      createSession r =
          Except.error ("Failed to create session: " ++ r.statusText) ∧
        sendMessage r =
          Except.error (detailOr r.body "Failed to send message") ∧
        searchMemory r =
          Except.error ("Failed to search memory: " ++ r.statusText)) := by
  constructor
  · intro h
    refine ⟨?_, ?_, ?_⟩ <;> simp [createSession, sendMessage, searchMemory, h]
  · intro h
    refine ⟨?_, ?_, ?_⟩ <;> simp [createSession, sendMessage, searchMemory, h]

/-- C9 witness: a concrete ok response is returned as its body, and a concrete
failing response without a detail field throws the fallback message. -/
theorem api_methods_error_iff_not_ok_witness :
    createSession { ok := true, statusText := "OK", body := Json.null } =
        Except.ok Json.null ∧
      sendMessage { ok := false, statusText := "Bad Request", body := Json.obj [] } =
        Except.error "Failed to send message" :=
  ⟨((api_methods_error_iff_not_ok
        { ok := true, statusText := "OK", body := Json.null }).1 rfl).1,
    ((api_methods_error_iff_not_ok
        { ok := false, statusText := "Bad Request", body := Json.obj [] }).2 rfl).2.1⟩

/-- The value of the digit list produced with sufficient fuel is the number
itself. -/
theorem fromDigitsRev_digitsRevAux :
    ∀ fuel n : Nat, n ≤ fuel → fromDigitsRev (digitsRevAux fuel n) = n := by
  intro fuel
  induction fuel with
  | zero =>
    intro n hn
    interval_cases n
    rfl
  | succ fuel ih =>
    intro n hn
    by_cases h0 : n = 0
    · subst h0
      rfl
    · have hdiv : n / 10 < n := Nat.div_lt_self (Nat.pos_of_ne_zero h0) (by omega)
      have hle : n / 10 ≤ fuel := by omega
      simp only [digitsRevAux, if_neg h0, fromDigitsRev, ih _ hle]
      omega

/-- Decoding inverts the decimal digit computation. -/
theorem fromDigitsRev_digitsRev (n : Nat) : fromDigitsRev (digitsRev n) = n :=
  fromDigitsRev_digitsRevAux n n (Nat.le_refl n)

/-- Every digit the decimal digit computation produces is below ten. -/
theorem mem_digitsRevAux_lt :
    ∀ fuel n d : Nat, d ∈ digitsRevAux fuel n → d < 10 := by
  intro fuel
  induction fuel with
  | zero => intro n d h; simp [digitsRevAux] at h
  | succ fuel ih =>
    intro n d h
    by_cases h0 : n = 0
    · subst h0; simp [digitsRevAux] at h
    · simp only [digitsRevAux, if_neg h0, List.mem_cons] at h
      rcases h with rfl | h
      · omega
      · exact ih _ _ h

/-- Reading back the character of a decimal digit yields the digit. -/
theorem charDigit_digitChar {d : Nat} (h : d < 10) :
    charDigit (digitChar d) = d := by
  interval_cases d <;> decide

/-- Decoding the decimal rendering of a natural number gives the number back:
the rendering is injective. -/
theorem decodeDecimal_natToDecimal (n : Nat) :
    decodeDecimal (natToDecimal n) = n := by
  by_cases h0 : n = 0
  · subst h0
    decide
  · unfold natToDecimal
    rw [if_neg h0]
    show fromDigitsRev
      ((((digitsRev n).reverse.map digitChar).map charDigit).reverse) = n
    rw [List.map_map]
    have hmap : (digitsRev n).reverse.map (charDigit ∘ digitChar) =
        (digitsRev n).reverse.map id := by
      apply List.map_congr_left
      intro d hd
      have : d < 10 :=
        mem_digitsRevAux_lt n n d (List.mem_reverse.mp hd)
      simpa using charDigit_digitChar this
    rw [hmap, List.map_id, List.reverse_reverse]
    exact fromDigitsRev_digitsRev n

/-- Distinct timestamps render to distinct generated user ids. -/
theorem genUserId_injective {n m : Nat} (h : genUserId n = genUserId m) :
    n = m := by
  have hdata := congrArg String.data h
  simp only [genUserId, String.data_append] at hdata
  have hdec : natToDecimal n = natToDecimal m := by
    have htail := List.append_cancel_left hdata
    cases hn : natToDecimal n with
    | mk d1 =>
      cases hm : natToDecimal m with
      | mk d2 =>
        rw [hn, hm] at htail
        simp only at htail
        rw [htail]
  have := congrArg decodeDecimal hdec
  rwa [decodeDecimal_natToDecimal, decodeDecimal_natToDecimal] at this

/-- C10: when `App.handleSendMessage` sends a turn it omits the user id, so
`ApiService.sendMessage` fills the body's user id with the freshly generated
string `user-` followed by the current timestamp — hence two turns sent at
different timestamps carry different user ids. -/
theorem handleSendMessage_fresh_user_id (messageText sessionId : String)
    (now other : Nat) :
    handleSendMessageRequest messageText sessionId now =
        sendMessageRequest messageText sessionId none true now ∧
    (handleSendMessageRequest messageText sessionId now).user_id =
        "user-" ++ natToDecimal now ∧
    (now ≠ other →
      (handleSendMessageRequest messageText sessionId now).user_id ≠
        (handleSendMessageRequest messageText sessionId other).user_id) := by
  refine ⟨rfl, rfl, ?_⟩
  intro hne heq
  exact hne (genUserId_injective heq)

/-- C10 witness: two turns of the same session sent at timestamps 5 and 6 get
different generated user ids, the first being `user-5`. -/
theorem handleSendMessage_fresh_user_id_witness :
    (handleSendMessageRequest "hello" "session-1" 5).user_id = "user-" ++ natToDecimal 5 ∧
      (handleSendMessageRequest "hello" "session-1" 5).user_id ≠
        (handleSendMessageRequest "hello" "session-1" 6).user_id :=
  ⟨(handleSendMessage_fresh_user_id "hello" "session-1" 5 6).2.1,
    (handleSendMessage_fresh_user_id "hello" "session-1" 5 6).2.2 (by decide)⟩
